import Mathlib

/-!
Verification of the Telescope configuration-resolution core
(`src/env.rs`: `TelescopeConfig::reverse_lookup` and
`TelescopeConfig::make_concrete`).

The data model and the two operations are translated directly from the
Rust source.  Rust `Option<T>` becomes `Option T`; the `HashMap<String,
TelescopeConfig>` of sub-profiles becomes an association list looked up by
key; panics (`unwrap` on `None`, `expect`) and the `eprintln!`/`exit(1)`
path in `make_concrete` are made visible as explicit outcome constructors,
since they abort the process rather than returning to the caller.
-/

namespace Telescope

/-- The TLS credentials of a given configuration (`TlsConfig` in `env.rs`).
Paths are modelled as strings. -/
structure TlsConfig where
  cert_file : String
  private_key_file : String
  deriving DecidableEq, Repr

/-- SMTP client configuration (`SmtpConfig` in `env.rs`). -/
structure SmtpConfig where
  port : Nat
  username : String
  password : String
  host : String
  deriving DecidableEq, Repr

/-- Email sender configuration (`EmailSenderConfig` in `env.rs`). -/
structure EmailSenderConfig where
  name : Option String
  address : String
  stub : Bool
  file : Option String
  smtp : Option SmtpConfig
  deriving DecidableEq, Repr

/-- Sysadmin account bootstrap configuration (`SysadminCreationConfig`). -/
structure SysadminCreationConfig where
  create : Bool
  email : String
  password : String
  deriving DecidableEq, Repr

/-- One node of the configuration tree (`TelescopeConfig` in `env.rs`):
six independently optional attributes plus an optional map from profile
name to sub-profile.  The `HashMap` is modelled as an association list. -/
inductive TelescopeConfig where
  | mk
      (log_level : Option String)
      (bind_to : Option String)
      (database_url : Option String)
      (email_config : Option EmailSenderConfig)
      (sysadmin_config : Option SysadminCreationConfig)
      (tls_config : Option TlsConfig)
      (profile : Option (List (String × TelescopeConfig)))

/-- Accessor for the `log_level` field. -/
def TelescopeConfig.log_level : TelescopeConfig → Option String
  | .mk l _ _ _ _ _ _ => l

/-- Accessor for the `bind_to` field. -/
def TelescopeConfig.bind_to : TelescopeConfig → Option String
  | .mk _ b _ _ _ _ _ => b

/-- Accessor for the `database_url` field. -/
def TelescopeConfig.database_url : TelescopeConfig → Option String
  | .mk _ _ d _ _ _ _ => d

/-- Accessor for the `email_config` field. -/
def TelescopeConfig.email_config : TelescopeConfig → Option EmailSenderConfig
  | .mk _ _ _ e _ _ _ => e

/-- Accessor for the `sysadmin_config` field. -/
def TelescopeConfig.sysadmin_config : TelescopeConfig → Option SysadminCreationConfig
  | .mk _ _ _ _ s _ _ => s

/-- Accessor for the `tls_config` field. -/
def TelescopeConfig.tls_config : TelescopeConfig → Option TlsConfig
  | .mk _ _ _ _ _ t _ => t

/-- Accessor for the `profile` field (the map of sub-profiles). -/
def TelescopeConfig.profile : TelescopeConfig → Option (List (String × TelescopeConfig))
  | .mk _ _ _ _ _ _ p => p

/-- Key lookup in the association list modelling the `HashMap` of
sub-profiles (`HashMap::get`). -/
def lookupChild (m : List (String × TelescopeConfig)) (key : String) :
    Option TelescopeConfig :=
  match m with
  | [] => none
  | (k, v) :: rest => if k = key then some v else lookupChild rest key

/-- The sub-profile of `self` named `key`, if any: `none` when `self` has
no `profile` map or the map has no such key.  This is the combination
`self.profile.as_ref()` / `get(key)` used in both the path-validation loop
and `reverse_lookup`. -/
def TelescopeConfig.child (self : TelescopeConfig) (key : String) :
    Option TelescopeConfig :=
  match self.profile with
  | none => none
  | some m => lookupChild m key

/-- `TelescopeConfig::reverse_lookup` from `env.rs`, translated clause by
clause.  The Rust function calls `.unwrap()` on the profile map and on the
child lookup, which panics when the path is not actually present; the
outer `Option` makes that panic explicit (`none` = the process panicked),
while the inner `Option T` is the present-or-absent attribute value the
Rust function returns. -/
def TelescopeConfig.reverse_lookup {T : Type} (self : TelescopeConfig)
    (profile_slice : List String) (extractor : TelescopeConfig → Option T) :
    Option (Option T) :=
  match profile_slice with
  | [] => some (extractor self)
  | [p] =>
    match self.child p with
    | none => none
    | some c => some ((extractor c).or (extractor self))
  | p :: q :: rest =>
    match self.child p with
    | none => none
    | some c =>
      match c.reverse_lookup (q :: rest) extractor with
      | none => none
      | some v => some (v.or (extractor self))

/-- Outcome of the path-validation loop at the top of `make_concrete`:
either the terminal node of the walk, or failure carrying exactly what the
code's `eprintln!` message carries — the full attempted path (`{:?}` of
`profile`) and the missing part. -/
inductive WalkResult where
  | ok (node : TelescopeConfig)
  | notFound (attempted : List String) (missing : String)

/-- The path-validation loop of `make_concrete` (`for part in &profile`):
walk `remaining` from `scope`, descending into the named child at each
step; on a missing child, fail naming the full `attempted` path and the
missing part. -/
def walkProfile (scope : TelescopeConfig) (attempted : List String)
    (remaining : List String) : WalkResult :=
  match remaining with
  | [] => .ok scope
  | part :: rest =>
    match scope.child part with
    | none => .notFound attempted part
    | some c => walkProfile c attempted rest

/-- The fully resolved configuration (`ConcreteConfig` in `env.rs`). -/
structure ConcreteConfig where
  tls_config : TlsConfig
  log_level : String
  bind_to : String
  database_url : String
  email_config : EmailSenderConfig
  sysadmin_config : Option SysadminCreationConfig

/-- Outcome of `make_concrete`.  The Rust function either returns a
`ConcreteConfig`, or aborts the process: `exitProfileNotFound` models the
`eprintln!` + `exit(1)` path taken on an invalid profile path (carrying
what the diagnostic message carries), and `panicked` models a panic
(`expect` on an unresolved required field, or `unwrap` on `None`),
carrying the panic message. -/
inductive ConcreteResult where
  | ok (config : ConcreteConfig)
  | exitProfileNotFound (attempted : List String) (missing : String)
  | panicked (message : String)

/-- The message of Rust's `Option::unwrap` panic. -/
def unwrapPanicMessage : String := "called Option::unwrap() on a None value"

/-- Evaluation of `reverse_lookup(..).expect(message)` inside
`make_concrete`, in continuation style: an inner `unwrap` panic
propagates, an absent required value panics with the `expect` message, and
a present value is passed on. -/
def expectField {T : Type} (v : Option (Option T)) (message : String)
    (k : T → ConcreteResult) : ConcreteResult :=
  match v with
  | none => .panicked unwrapPanicMessage
  | some none => .panicked message
  | some (some x) => k x

/-- `TelescopeConfig::make_concrete` from `env.rs`: validate the profile
path (exiting with a diagnostic on the first missing part), then resolve
each field by `reverse_lookup` starting from `self` with the full path, in
the source order of the `ConcreteConfig` struct expression —
`tls_config`, `log_level`, `bind_to`, `database_url`, `email_config`,
`sysadmin_config` — with `expect` (panic) on each required field and a
plain `Option` for `sysadmin_config`. -/
def TelescopeConfig.make_concrete (self : TelescopeConfig)
    (profile : List String) : ConcreteResult :=
  match walkProfile self profile profile with
  | .notFound attempted part => .exitProfileNotFound attempted part
  | .ok _ =>
    expectField (self.reverse_lookup profile (fun c => c.tls_config))
      "Could not resolve TLS config." (fun tls =>
    expectField (self.reverse_lookup profile (fun c => c.log_level))
      "Could not resolve log level." (fun level =>
    expectField (self.reverse_lookup profile (fun c => c.bind_to))
      "Could not resolve binding URL." (fun bind =>
    expectField (self.reverse_lookup profile (fun c => c.database_url))
      "Could not resolve database URL." (fun db =>
    expectField (self.reverse_lookup profile (fun c => c.email_config))
      "Could not resolve email config." (fun email =>
    match self.reverse_lookup profile (fun c => c.sysadmin_config) with
    | none => .panicked unwrapPanicMessage
    | some sys => .ok ⟨tls, level, bind, db, email, sys⟩)))))

/-- True exactly on the outcomes of `make_concrete` in which the process
terminates abnormally instead of returning a value to the caller:
`exit(1)` after printing the path diagnostic, or a panic. -/
def processTerminated : ConcreteResult → Bool
  | .ok _ => false
  | .exitProfileNotFound _ _ => true
  | .panicked _ => true

/-- The ordered chain of nodes visited along a profile path, root first,
terminal node last; `none` when some segment has no matching child.  This
is the sequence of §9's alternative formulation of the resolver ("first
collecting the ordered chain of nodes from root to target"), and also
serves to state which nodes lie on a path. -/
def chainNodes (self : TelescopeConfig) (ps : List String) :
    Option (List TelescopeConfig) :=
  match ps with
  | [] => some [self]
  | p :: rest =>
    match self.child p with
    | none => none
    | some c => (chainNodes c rest).map (fun l => self :: l)

/-- First defined value in a list of optional values. -/
def firstDefined {T : Type} : List (Option T) → Option T
  | [] => none
  | x :: rest => x.or (firstDefined rest)

/-- The alternative resolver formulation of §9 of the specification,
written from the spec's words: collect the ordered chain of nodes from
root to target into a sequence, then scan that sequence from the target
end toward the root for the first defined value.  The outer `Option`
mirrors `reverse_lookup`: `none` when the chain cannot be collected. -/
def specScanLookup {T : Type} (self : TelescopeConfig) (ps : List String)
    (extractor : TelescopeConfig → Option T) : Option (Option T) :=
  (chainNodes self ps).map (fun chain => firstDefined (chain.reverse.map extractor))

/-- Generic statement that a field is unresolved along a (valid) path:
`reverse_lookup` runs without panicking and yields absence. -/
abbrev unresolved {T : Type} (self : TelescopeConfig) (ps : List String)
    (extractor : TelescopeConfig → Option T) : Prop :=
  self.reverse_lookup ps extractor = some none

/-- Scenario grandchild profile `dev.trace` of the spec: defines only
`log_level = "trace"`. -/
def traceNode : TelescopeConfig := .mk (some "trace") none none none none none none

/-- Scenario child profile `dev` of the spec: defines only
`bind_to = "127.0.0.1:9090"`, with sub-profile `trace`. -/
def devNode : TelescopeConfig :=
  .mk none (some "127.0.0.1:9090") none none none none (some [("trace", traceNode)])

/-- Scenario root of the spec: defines `log_level = "info"` and
`bind_to = "0.0.0.0:8080"`, with child profile `dev`. -/
def rootNode : TelescopeConfig :=
  .mk (some "info") (some "0.0.0.0:8080") none none none none (some [("dev", devNode)])

/-- A sibling profile `prod` that defines clashing values everywhere it
can; used to show off-path nodes are never consulted. -/
def prodNode : TelescopeConfig :=
  .mk (some "error") (some "10.0.0.1:80") (some "postgres://prod") none none none none

/-- The scenario root with an extra `prod` sibling of `dev`: the nodes on
the path `dev.trace` are attribute-for-attribute identical to those of
`rootNode`, but the tree differs off the path. -/
def rootWithProd : TelescopeConfig :=
  .mk (some "info") (some "0.0.0.0:8080") none none none none
    (some [("dev", devNode), ("prod", prodNode)])

/-- A sample TLS credential pair. -/
def sampleTls : TlsConfig := ⟨"cert.pem", "key.pem"⟩

/-- A sample email sender configuration (console-stub delivery). -/
def sampleEmail : EmailSenderConfig := ⟨none, "ops@example.com", true, none, none⟩

/-- A root defining every required attribute (but no sysadmin bootstrap
settings), with child profile `dev`. -/
def fullRoot : TelescopeConfig :=
  .mk (some "info") (some "0.0.0.0:8080") (some "postgres://db") (some sampleEmail)
    none (some sampleTls) (some [("dev", devNode)])

/-- A root defining no attribute and no profiles at all. -/
def badRoot : TelescopeConfig := .mk none none none none none none none

/-- A root missing `tls_config` and `database_url` but defining the other
required attributes; no sub-profiles. -/
def noTlsNoDbRoot : TelescopeConfig :=
  .mk (some "info") (some "0.0.0.0:8080") none (some sampleEmail) none none none

/-- A root with a single child `a` that itself has no children; used for
path-validation failure on `["a", "b"]`. -/
def aRoot : TelescopeConfig :=
  .mk none none none none none none (some [("a", badRoot)])

/-- The field-assembly stage of `make_concrete`, abstracted over the six
values produced by `reverse_lookup` on a validated path: panic with the
`expect` message of the first required field in the source order of the
`ConcreteConfig` struct expression that resolved to absence, or build the
configuration (with the optional `sysadmin_config` taken as-is). -/
def assembleFrom (o1 : Option TlsConfig) (o2 o3 o4 : Option String)
    (o5 : Option EmailSenderConfig) (o6 : Option SysadminCreationConfig) :
    ConcreteResult :=
  match o1 with
  | none => .panicked "Could not resolve TLS config."
  | some tls =>
    match o2 with
    | none => .panicked "Could not resolve log level."
    | some level =>
      match o3 with
      | none => .panicked "Could not resolve binding URL."
      | some bind =>
        match o4 with
        | none => .panicked "Could not resolve database URL."
        | some db =>
          match o5 with
          | none => .panicked "Could not resolve email config."
          | some email => .ok ⟨tls, level, bind, db, email, o6⟩

/-! ## Helper lemmas -/

theorem firstDefined_append {T : Type} (a b : List (Option T)) :
    firstDefined (a ++ b) = (firstDefined a).or (firstDefined b) := by
  induction a with
  | nil => simp [firstDefined]
  | cons x rest ih => simp [firstDefined, ih, Option.or_assoc]

theorem firstDefined_of_all_none {T : Type} (l : List (Option T))
    (h : ∀ x ∈ l, x = none) : firstDefined l = none := by
  induction l with
  | nil => rfl
  | cons x rest ih =>
    have hx := h x (List.mem_cons_self x rest)
    subst hx
    simp [firstDefined, ih fun y hy => h y (List.mem_cons_of_mem _ hy)]

/-- Any chain collected by `chainNodes` starts with the node it was
collected from. -/
theorem chainNodes_cons_self (self : TelescopeConfig) (ps : List String)
    (chain : List TelescopeConfig) (h : chainNodes self ps = some chain) :
    ∃ l, chain = self :: l := by
  cases ps with
  | nil =>
    simp only [chainNodes, Option.some.injEq] at h
    exact ⟨[], h.symm⟩
  | cons p rest =>
    simp only [chainNodes] at h
    cases hc : self.child p with
    | none => simp only [hc] at h; exact Option.noConfusion h
    | some c =>
      simp only [hc] at h
      cases hl : chainNodes c rest with
      | none => simp only [hl, Option.map_none'] at h; exact Option.noConfusion h
      | some l =>
        simp only [hl, Option.map_some', Option.some.injEq] at h
        exact ⟨l, h.symm⟩

/-- Equivalence between the source's recursive `reverse_lookup` and the
chain-collect-then-scan formulation: on any path whose chain of nodes
exists, `reverse_lookup` returns (without panicking) the first value
defined on the chain scanned from the target end toward the root. -/
theorem reverse_lookup_eq_scan {T : Type} (ps : List String)
    (self : TelescopeConfig) (extractor : TelescopeConfig → Option T)
    (chain : List TelescopeConfig) (h : chainNodes self ps = some chain) :
    self.reverse_lookup ps extractor =
      some (firstDefined (chain.reverse.map extractor)) := by
  induction ps generalizing self chain with
  | nil =>
    simp only [chainNodes, Option.some.injEq] at h
    subst h
    simp [TelescopeConfig.reverse_lookup, firstDefined, Option.or_none]
  | cons p rest ih =>
    simp only [chainNodes] at h
    cases hc : self.child p with
    | none => simp only [hc] at h; exact Option.noConfusion h
    | some c =>
      simp only [hc] at h
      cases hl : chainNodes c rest with
      | none => simp only [hl, Option.map_none'] at h; exact Option.noConfusion h
      | some l =>
        simp only [hl, Option.map_some', Option.some.injEq] at h
        subst h
        cases rest with
        | nil =>
          simp only [chainNodes, Option.some.injEq] at hl
          subst hl
          simp [TelescopeConfig.reverse_lookup, hc, firstDefined, Option.or_none]
        | cons q rest2 =>
          have hrec := ih c l hl
          simp only [TelescopeConfig.reverse_lookup, hc, hrec]
          rw [List.reverse_cons, List.map_append, firstDefined_append]
          simp [firstDefined, Option.or_none]

/-- A successful validation walk is the same thing as the chain of nodes
existing, and the walk's result is the last node of the chain. -/
theorem walkProfile_ok_iff_chain (ps : List String) (self : TelescopeConfig)
    (attempted : List String) (n : TelescopeConfig) :
    walkProfile self attempted ps = .ok n ↔
      ∃ chain, chainNodes self ps = some chain ∧ chain.getLast? = some n := by
  induction ps generalizing self with
  | nil =>
    simp [walkProfile, chainNodes, WalkResult.ok.injEq, eq_comm]
  | cons p rest ih =>
    cases hc : self.child p with
    | none => simp [walkProfile, chainNodes, hc]
    | some c =>
      rw [show walkProfile self attempted (p :: rest) = walkProfile c attempted rest
        from by simp [walkProfile, hc]]
      rw [ih c]
      constructor
      · rintro ⟨l, hl, hlast⟩
        obtain ⟨l2, rfl⟩ := chainNodes_cons_self c rest l hl
        refine ⟨self :: c :: l2, ?_, ?_⟩
        · simp [chainNodes, hc, hl]
        · simpa [List.getLast?_cons_cons] using hlast
      · rintro ⟨chain, hchain, hlast⟩
        simp only [chainNodes, hc] at hchain
        cases hl : chainNodes c rest with
        | none =>
          simp only [hl, Option.map_none'] at hchain
          exact Option.noConfusion hchain
        | some l =>
          simp only [hl, Option.map_some', Option.some.injEq] at hchain
          subst hchain
          obtain ⟨l2, rfl⟩ := chainNodes_cons_self c rest l hl
          exact ⟨c :: l2, rfl, by simpa [List.getLast?_cons_cons] using hlast⟩

/-- A failed validation walk reports the attempted path it was given and
decomposes the path at the first missing segment: the segments before it
walk successfully to a node that lacks a child of that name. -/
theorem walkProfile_notFound_decomp (ps : List String) (self : TelescopeConfig)
    (attempted att2 : List String) (part : String)
    (h : walkProfile self attempted ps = .notFound att2 part) :
    att2 = attempted ∧ ∃ pre rest n, ps = pre ++ part :: rest ∧
      walkProfile self attempted pre = .ok n ∧ n.child part = none := by
  induction ps generalizing self with
  | nil => simp [walkProfile] at h
  | cons p rest ih =>
    simp only [walkProfile] at h
    cases hc : self.child p with
    | none =>
      simp only [hc] at h
      cases h
      exact ⟨rfl, [], rest, self, rfl, rfl, hc⟩
    | some c =>
      simp only [hc] at h
      obtain ⟨ha, pre, rest2, n, hps, hwalk, hchild⟩ := ih c h
      refine ⟨ha, p :: pre, rest2, n, by simp [hps], ?_, hchild⟩
      simpa [walkProfile, hc] using hwalk

/-- Conversely: if some decomposition of the path reaches a node that
lacks the next segment as a child, the validation walk fails naming
exactly that segment (and the attempted path it was given). -/
theorem walkProfile_notFound_of_decomp (pre : List String)
    (self : TelescopeConfig) (attempted : List String) (part : String)
    (rest : List String) (n : TelescopeConfig)
    (hwalk : walkProfile self attempted pre = .ok n)
    (hchild : n.child part = none) :
    walkProfile self attempted (pre ++ part :: rest) =
      .notFound attempted part := by
  induction pre generalizing self with
  | nil =>
    simp only [walkProfile, WalkResult.ok.injEq] at hwalk
    subst hwalk
    simp [walkProfile, hchild]
  | cons p pre2 ih =>
    simp only [walkProfile] at hwalk ⊢
    cases hc : self.child p with
    | none => simp only [hc] at hwalk; cases hwalk
    | some c =>
      simp only [hc] at hwalk ⊢
      exact ih c hwalk

/-- On a validated path, `reverse_lookup` cannot panic: it returns some
present-or-absent value. -/
theorem reverse_lookup_total {T : Type} (self : TelescopeConfig)
    (ps : List String) (extractor : TelescopeConfig → Option T)
    (attempted : List String) (n : TelescopeConfig)
    (h : walkProfile self attempted ps = .ok n) :
    ∃ v, self.reverse_lookup ps extractor = some v := by
  obtain ⟨chain, hchain, -⟩ := (walkProfile_ok_iff_chain ps self attempted n).mp h
  exact ⟨_, reverse_lookup_eq_scan ps self extractor chain hchain⟩

theorem firstDefined_eq_none_iff {T : Type} (l : List (Option T)) :
    firstDefined l = none ↔ ∀ x ∈ l, x = none := by
  induction l with
  | nil => simp [firstDefined]
  | cons x rest ih => simp [firstDefined, Option.or_eq_none, ih]

/-- On a path whose chain exists, the resolver yields absence exactly when
no node on the chain defines the attribute. -/
theorem reverse_lookup_none_iff {T : Type} (self : TelescopeConfig)
    (ps : List String) (extractor : TelescopeConfig → Option T)
    (chain : List TelescopeConfig) (hchain : chainNodes self ps = some chain) :
    self.reverse_lookup ps extractor = some none ↔
      ∀ m ∈ chain, extractor m = none := by
  rw [reverse_lookup_eq_scan ps self extractor chain hchain]
  simp only [Option.some.injEq]
  rw [firstDefined_eq_none_iff]
  constructor
  · intro h m hm
    exact h (extractor m) (List.mem_map_of_mem _ (List.mem_reverse.mpr hm))
  · rintro h x hx
    obtain ⟨m, hm, rfl⟩ := List.mem_map.mp hx
    exact h m (List.mem_reverse.mp hm)

/-- On a validated path, `make_concrete` is the pure assembly of the six
`reverse_lookup` results. -/
theorem make_concrete_eq_assemble (self : TelescopeConfig) (ps : List String)
    (n : TelescopeConfig) (hwalk : walkProfile self ps ps = .ok n)
    (o1 : Option TlsConfig) (o2 o3 o4 : Option String)
    (o5 : Option EmailSenderConfig) (o6 : Option SysadminCreationConfig)
    (h1 : self.reverse_lookup ps (fun c => c.tls_config) = some o1)
    (h2 : self.reverse_lookup ps (fun c => c.log_level) = some o2)
    (h3 : self.reverse_lookup ps (fun c => c.bind_to) = some o3)
    (h4 : self.reverse_lookup ps (fun c => c.database_url) = some o4)
    (h5 : self.reverse_lookup ps (fun c => c.email_config) = some o5)
    (h6 : self.reverse_lookup ps (fun c => c.sysadmin_config) = some o6) :
    self.make_concrete ps = assembleFrom o1 o2 o3 o4 o5 o6 := by
  simp only [TelescopeConfig.make_concrete, hwalk, h1, h2, h3, h4, h5, h6]
  cases o1 <;> cases o2 <;> cases o3 <;> cases o4 <;> cases o5 <;> rfl

/-! ## Claims -/

/-- C1: for every tree, every valid profile path (one whose chain of
nodes exists), and every attribute, if a node `n` on the path defines the
attribute while every node strictly deeper than `n` on the path (the
block `deeper` of the target-to-root ordering) leaves it undefined, then
resolution returns `n`'s value.  In particular the value comes from the
node nearest the terminal that defines the attribute, never from a more
distant ancestor, and the root (the far end of `shallower`) is consulted
last. -/
theorem c1_nearest_defining_node_wins {T : Type} (self : TelescopeConfig)
    (ps : List String) (extractor : TelescopeConfig → Option T)
    (chain deeper shallower : List TelescopeConfig) (n : TelescopeConfig) (v : T)
    (hchain : chainNodes self ps = some chain)
    (hsplit : chain.reverse = deeper ++ n :: shallower)
    (hdeeper : ∀ m ∈ deeper, extractor m = none)
    (hn : extractor n = some v) :
    self.reverse_lookup ps extractor = some (some v) := by
  rw [reverse_lookup_eq_scan ps self extractor chain hchain, hsplit,
    List.map_append, firstDefined_append,
    firstDefined_of_all_none (deeper.map extractor) ?_, Option.none_or]
  · simp [firstDefined, hn]
  · intro x hx
    obtain ⟨m, hm, rfl⟩ := List.mem_map.mp hx
    exact hdeeper m hm

/-- C1 witness: in the spec's scenario tree, `bind_to` is undefined at the
terminal `dev.trace` node, and resolution of `["dev", "trace"]` returns
the value defined at `dev`, the nearest defining node, not the root's. -/
theorem c1_witness :
    chainNodes rootNode ["dev", "trace"] = some [rootNode, devNode, traceNode] ∧
    rootNode.reverse_lookup ["dev", "trace"] (fun c => c.bind_to) =
      some (some "127.0.0.1:9090") :=
  ⟨rfl, c1_nearest_defining_node_wins rootNode ["dev", "trace"] (fun c => c.bind_to)
    [rootNode, devNode, traceNode] [traceNode] [rootNode] devNode "127.0.0.1:9090"
    rfl rfl
    (by intro m hm; rw [List.mem_singleton] at hm; subst hm; rfl) rfl⟩

/-- C2: for every tree and every valid profile path, if the attribute is
defined at the node reached by the path (the terminal node of the
validation walk), resolution returns exactly that node's value, whatever
the ancestors along the path define. -/
theorem c2_terminal_value_wins {T : Type} (self : TelescopeConfig)
    (ps : List String) (extractor : TelescopeConfig → Option T)
    (n : TelescopeConfig) (v : T)
    (hwalk : walkProfile self ps ps = .ok n) (hv : extractor n = some v) :
    self.reverse_lookup ps extractor = some (some v) := by
  obtain ⟨chain, hchain, hlast⟩ := (walkProfile_ok_iff_chain ps self ps n).mp hwalk
  rw [reverse_lookup_eq_scan ps self extractor chain hchain]
  cases hr : chain.reverse with
  | nil =>
    obtain ⟨l, rfl⟩ := chainNodes_cons_self self ps chain hchain
    simp at hr
  | cons a t =>
    have : chain.getLast? = some a := by
      rw [← List.head?_reverse, hr]; rfl
    rw [hlast] at this
    injection this with ha
    subst ha
    simp [firstDefined, hv]

/-- C2 witness: in the spec's scenario tree, `log_level` is defined at the
terminal `dev.trace` node and resolution returns exactly it. -/
theorem c2_witness :
    walkProfile rootNode ["dev", "trace"] ["dev", "trace"] = .ok traceNode ∧
    rootNode.reverse_lookup ["dev", "trace"] (fun c => c.log_level) =
      some (some "trace") :=
  ⟨rfl, c2_terminal_value_wins rootNode ["dev", "trace"] (fun c => c.log_level)
    traceNode "trace" rfl rfl⟩

/-- C6: for every tree and every attribute, resolving with the empty
profile path returns exactly the root node's own value (present or
absent), and the empty path is accepted by the validation walk, selecting
the root itself. -/
theorem c6_empty_path_yields_root {T : Type} (self : TelescopeConfig)
    (extractor : TelescopeConfig → Option T) :
    self.reverse_lookup [] extractor = some (extractor self) ∧
    walkProfile self [] [] = .ok self :=
  ⟨rfl, rfl⟩

/-- C7: resolution is a deterministic pure function of (tree, path,
attribute accessor) — the first conjunct — and depends only on the
attribute values of the nodes on the root-to-target path: if two trees
carry chains along the same path whose nodes define identical attribute
values, resolution returns the same result, so nodes off the path
(siblings, cousins) never influence the outcome. -/
theorem c7_pure_function_of_path_values {T : Type} (t1 t2 : TelescopeConfig)
    (ps : List String) (e1 e2 : TelescopeConfig → Option T)
    (chain1 chain2 : List TelescopeConfig)
    (h1 : chainNodes t1 ps = some chain1) (h2 : chainNodes t2 ps = some chain2)
    (hagree : chain1.map e1 = chain2.map e2) :
    t1.reverse_lookup ps e1 = t1.reverse_lookup ps e1 ∧
    t1.reverse_lookup ps e1 = t2.reverse_lookup ps e2 := by
  refine ⟨rfl, ?_⟩
  rw [reverse_lookup_eq_scan ps t1 e1 chain1 h1,
    reverse_lookup_eq_scan ps t2 e2 chain2 h2,
    List.map_reverse, List.map_reverse, hagree]

/-- C7 witness: adding a `prod` sibling (with clashing values) off the
path `dev.trace` leaves resolution of `bind_to` unchanged. -/
theorem c7_witness :
    chainNodes rootNode ["dev", "trace"] = some [rootNode, devNode, traceNode] ∧
    chainNodes rootWithProd ["dev", "trace"] =
      some [rootWithProd, devNode, traceNode] ∧
    rootNode.reverse_lookup ["dev", "trace"] (fun c => c.bind_to) =
      rootWithProd.reverse_lookup ["dev", "trace"] (fun c => c.bind_to) :=
  ⟨rfl, rfl, (c7_pure_function_of_path_values rootNode rootWithProd
    ["dev", "trace"] (fun c => c.bind_to) (fun c => c.bind_to)
    [rootNode, devNode, traceNode] [rootWithProd, devNode, traceNode]
    rfl rfl rfl).2⟩

/-- C8: for every tree and every profile path accepted by the validation
walk (each segment names an existing child), the recursive resolver is
totally defined: no internal child-map lookup fails (no `unwrap` panic,
i.e. the outer `Option` is `some`) and a present-or-absent value is
returned. -/
theorem c8_resolver_total_on_valid_paths {T : Type} (self : TelescopeConfig)
    (ps : List String) (extractor : TelescopeConfig → Option T)
    (n : TelescopeConfig) (hvalid : walkProfile self ps ps = .ok n) :
    ∃ v, self.reverse_lookup ps extractor = some v :=
  reverse_lookup_total self ps extractor ps n hvalid

/-- C8 witness: on the validated path `["dev"]` of the scenario tree the
resolver returns a value (here: absence of `database_url`). -/
theorem c8_witness :
    walkProfile rootNode ["dev"] ["dev"] = .ok devNode ∧
    ∃ v, rootNode.reverse_lookup ["dev"] (fun c => c.database_url) = some v :=
  ⟨rfl, c8_resolver_total_on_valid_paths rootNode ["dev"]
    (fun c => c.database_url) devNode rfl⟩

/-- C9: on every valid path (one whose chain of nodes exists), the
recursive `reverse_lookup` of the source agrees with the alternative
formulation that first collects the ordered chain of nodes from root to
target and then scans it from the target end toward the root for the
first defined value. -/
theorem c9_recursion_eq_chain_scan {T : Type} (self : TelescopeConfig)
    (ps : List String) (extractor : TelescopeConfig → Option T)
    (chain : List TelescopeConfig) (h : chainNodes self ps = some chain) :
    self.reverse_lookup ps extractor = specScanLookup self ps extractor := by
  rw [reverse_lookup_eq_scan ps self extractor chain h, specScanLookup, h,
    Option.map_some']

/-- C9 witness: the two formulations agree on the scenario tree at
`["dev", "trace"]` for `bind_to`. -/
theorem c9_witness :
    chainNodes rootNode ["dev", "trace"] = some [rootNode, devNode, traceNode] ∧
    rootNode.reverse_lookup ["dev", "trace"] (fun c => c.bind_to) =
      specScanLookup rootNode ["dev", "trace"] (fun c => c.bind_to) :=
  ⟨rfl, c9_recursion_eq_chain_scan rootNode ["dev", "trace"] (fun c => c.bind_to)
    [rootNode, devNode, traceNode] rfl⟩

/-- C3 counterexample: the claim says the core returns a typed failure
value to its caller and never terminates the process or logs; but on the
unknown profile path `["prod"]` against an empty tree, `make_concrete`
takes the `eprintln!` + `exit(1)` path (modelled by
`exitProfileNotFound`), i.e. it prints a diagnostic and terminates the
process instead of returning a failure value. -/
theorem c3_counterexample :
    badRoot.make_concrete ["prod"] = .exitProfileNotFound ["prod"] "prod" ∧
    processTerminated (badRoot.make_concrete ["prod"]) = true :=
  ⟨rfl, rfl⟩

/-- C3 as amended: every failure of the assembler terminates the process
rather than being returned to the caller — an unknown profile path is
reported by printing a diagnostic carrying the full attempted path and a
segment of it (the missing one) and exiting with status 1, and an
unresolvable required attribute is reported by a panic whose message
names that attribute. -/
theorem c3_amended_failures_abort_process (self : TelescopeConfig)
    (ps : List String) :
    (∀ att part, self.make_concrete ps = .exitProfileNotFound att part →
      processTerminated (self.make_concrete ps) = true ∧ att = ps ∧ part ∈ ps)
    ∧ (∀ msg, self.make_concrete ps = .panicked msg →
      processTerminated (self.make_concrete ps) = true ∧
      msg ∈ ["Could not resolve TLS config.", "Could not resolve log level.",
             "Could not resolve binding URL.", "Could not resolve database URL.",
             "Could not resolve email config."]) := by
  cases hw : walkProfile self ps ps with
  | notFound att2 part2 =>
    have hmc : self.make_concrete ps = .exitProfileNotFound att2 part2 := by
      simp only [TelescopeConfig.make_concrete, hw]
    obtain ⟨ha, pre, rest, m, hps, -, -⟩ :=
      walkProfile_notFound_decomp ps self ps att2 part2 hw
    subst ha
    constructor
    · intro att part heq
      rw [hmc] at heq
      cases heq
      refine ⟨by rw [hmc]; rfl, rfl, ?_⟩
      rw [hps]
      exact List.mem_append_right _ (List.mem_cons_self _ _)
    · intro msg heq
      rw [hmc] at heq
      exact absurd heq (by simp)
  | ok nn =>
    obtain ⟨o1, h1⟩ := reverse_lookup_total self ps (fun c => c.tls_config) ps nn hw
    obtain ⟨o2, h2⟩ := reverse_lookup_total self ps (fun c => c.log_level) ps nn hw
    obtain ⟨o3, h3⟩ := reverse_lookup_total self ps (fun c => c.bind_to) ps nn hw
    obtain ⟨o4, h4⟩ := reverse_lookup_total self ps (fun c => c.database_url) ps nn hw
    obtain ⟨o5, h5⟩ := reverse_lookup_total self ps (fun c => c.email_config) ps nn hw
    obtain ⟨o6, h6⟩ :=
      reverse_lookup_total self ps (fun c => c.sysadmin_config) ps nn hw
    have hmc := make_concrete_eq_assemble self ps nn hw o1 o2 o3 o4 o5 o6
      h1 h2 h3 h4 h5 h6
    rw [hmc]
    constructor
    · intro att part heq
      revert heq
      cases o1 <;> cases o2 <;> cases o3 <;> cases o4 <;> cases o5 <;>
        simp [assembleFrom]
    · intro msg heq
      revert heq
      cases o1 <;> cases o2 <;> cases o3 <;> cases o4 <;> cases o5 <;>
        simp [assembleFrom, processTerminated] <;> (intro h; simp [h])

/-- C3 amended witness: at the empty tree and path `["prod"]` the failure
is the process-terminating path diagnostic, carrying the attempted path
and its missing segment. -/
theorem c3_amended_witness :
    processTerminated (badRoot.make_concrete ["prod"]) = true ∧
    (["prod"] : List String) = ["prod"] ∧ "prod" ∈ (["prod"] : List String) :=
  (c3_amended_failures_abort_process badRoot ["prod"]).1 ["prod"] "prod" rfl

/-- C4: on a valid profile path, assembly fails by a panic naming a
required attribute exactly when some required attribute is defined at no
node of the path's chain (root through terminal); each panic message
names an attribute that is truly undefined on the whole chain; and when
every required attribute resolves, assembly succeeds, taking the optional
`sysadmin_config` as the resolver's present-or-absent result — absence of
the sysadmin bootstrap settings is a valid success state producing no
error. -/
theorem c4_required_field_resolution_policy (self : TelescopeConfig)
    (ps : List String) (n : TelescopeConfig) (chain : List TelescopeConfig)
    (hwalk : walkProfile self ps ps = .ok n)
    (hchain : chainNodes self ps = some chain) :
    ((∃ msg, self.make_concrete ps = .panicked msg) ↔
      ((∀ m ∈ chain, m.tls_config = none) ∨ (∀ m ∈ chain, m.log_level = none) ∨
       (∀ m ∈ chain, m.bind_to = none) ∨ (∀ m ∈ chain, m.database_url = none) ∨
       (∀ m ∈ chain, m.email_config = none)))
    ∧ (self.make_concrete ps = .panicked "Could not resolve TLS config." →
        ∀ m ∈ chain, m.tls_config = none)
    ∧ (self.make_concrete ps = .panicked "Could not resolve log level." →
        ∀ m ∈ chain, m.log_level = none)
    ∧ (self.make_concrete ps = .panicked "Could not resolve binding URL." →
        ∀ m ∈ chain, m.bind_to = none)
    ∧ (self.make_concrete ps = .panicked "Could not resolve database URL." →
        ∀ m ∈ chain, m.database_url = none)
    ∧ (self.make_concrete ps = .panicked "Could not resolve email config." →
        ∀ m ∈ chain, m.email_config = none)
    ∧ ((¬ (∀ m ∈ chain, m.tls_config = none) ∧
        ¬ (∀ m ∈ chain, m.log_level = none) ∧
        ¬ (∀ m ∈ chain, m.bind_to = none) ∧
        ¬ (∀ m ∈ chain, m.database_url = none) ∧
        ¬ (∀ m ∈ chain, m.email_config = none)) →
        ∃ cfg, self.make_concrete ps = .ok cfg ∧
          some cfg.sysadmin_config =
            self.reverse_lookup ps (fun c => c.sysadmin_config)) := by
  obtain ⟨o1, h1⟩ := reverse_lookup_total self ps (fun c => c.tls_config) ps n hwalk
  obtain ⟨o2, h2⟩ := reverse_lookup_total self ps (fun c => c.log_level) ps n hwalk
  obtain ⟨o3, h3⟩ := reverse_lookup_total self ps (fun c => c.bind_to) ps n hwalk
  obtain ⟨o4, h4⟩ := reverse_lookup_total self ps (fun c => c.database_url) ps n hwalk
  obtain ⟨o5, h5⟩ := reverse_lookup_total self ps (fun c => c.email_config) ps n hwalk
  obtain ⟨o6, h6⟩ :=
    reverse_lookup_total self ps (fun c => c.sysadmin_config) ps n hwalk
  have u1 := reverse_lookup_none_iff self ps (fun c => c.tls_config) chain hchain
  have u2 := reverse_lookup_none_iff self ps (fun c => c.log_level) chain hchain
  have u3 := reverse_lookup_none_iff self ps (fun c => c.bind_to) chain hchain
  have u4 := reverse_lookup_none_iff self ps (fun c => c.database_url) chain hchain
  have u5 := reverse_lookup_none_iff self ps (fun c => c.email_config) chain hchain
  rw [h1] at u1; rw [h2] at u2; rw [h3] at u3; rw [h4] at u4; rw [h5] at u5
  simp only [Option.some.injEq] at u1 u2 u3 u4 u5
  rw [← u1, ← u2, ← u3, ← u4, ← u5]
  have hmc := make_concrete_eq_assemble self ps n hwalk o1 o2 o3 o4 o5 o6
    h1 h2 h3 h4 h5 h6
  rw [hmc, h6]
  cases o1 <;> cases o2 <;> cases o3 <;> cases o4 <;> cases o5 <;>
    simp [assembleFrom]

/-- C4 witness: `fullRoot` defines every required attribute, the path
`["dev"]` validates, every required attribute resolves, and assembly
succeeds even though the optional sysadmin settings are absent everywhere
on the path. -/
theorem c4_witness :
    ∃ cfg, fullRoot.make_concrete ["dev"] = .ok cfg ∧
      some cfg.sysadmin_config =
        fullRoot.reverse_lookup ["dev"] (fun c => c.sysadmin_config) :=
  (c4_required_field_resolution_policy fullRoot ["dev"] devNode
    [fullRoot, devNode] rfl rfl).2.2.2.2.2.2
    ⟨by decide, by decide, by decide, by decide, by decide⟩

/-- C5 counterexample: the claim says a validation failure carries the
path prefix consumed so far; but on the tree whose root has exactly one
child `a` (itself childless) and the path `["a", "b"]`, the failure value
carries the full attempted path `["a", "b"]` (what the code's diagnostic
prints), which is not the consumed prefix `["a"]`. -/
theorem c5_counterexample :
    walkProfile aRoot ["a", "b"] ["a", "b"] = .notFound ["a", "b"] "b" ∧
    (["a", "b"] : List String) ≠ ["a"] :=
  ⟨rfl, by decide⟩

/-- C5 as amended: if a walk of some prefix of the path reaches a node
whose children lack the next segment, validation fails identifying
exactly that first missing segment (even if later segments would also be
invalid) together with the full attempted path (not the consumed prefix);
conversely every failure decomposes that way; and a successful walk
returns the terminal node of the path's chain.  The walk is a pure
function — it has no side effects to state. -/
theorem c5_amended_first_missing_segment (self : TelescopeConfig)
    (ps : List String) :
    (∀ att part, walkProfile self ps ps = .notFound att part →
      att = ps ∧ ∃ pre rest n, ps = pre ++ part :: rest ∧
        walkProfile self ps pre = .ok n ∧ n.child part = none)
    ∧ (∀ pre part rest n, ps = pre ++ part :: rest →
        walkProfile self ps pre = .ok n → n.child part = none →
        walkProfile self ps ps = .notFound ps part)
    ∧ (∀ n, walkProfile self ps ps = .ok n →
        ∃ chain, chainNodes self ps = some chain ∧ chain.getLast? = some n) := by
  refine ⟨?_, ?_, ?_⟩
  · intro att part h
    exact walkProfile_notFound_decomp ps self ps att part h
  · intro pre part rest n hps hw hc
    rw [hps] at hw ⊢
    exact walkProfile_notFound_of_decomp pre self (pre ++ part :: rest) part rest
      n hw hc
  · intro n h
    exact (walkProfile_ok_iff_chain ps self ps n).mp h

/-- C5 amended witness: on `aRoot` and the path `["a", "b"]`, the failure
carries the full attempted path and decomposes it at the first missing
segment `"b"`. -/
theorem c5_amended_witness :
    (["a", "b"] : List String) = ["a", "b"] ∧
    ∃ pre rest n, (["a", "b"] : List String) = pre ++ "b" :: rest ∧
      walkProfile aRoot ["a", "b"] pre = .ok n ∧ n.child "b" = none :=
  (c5_amended_first_missing_segment aRoot ["a", "b"]).1 ["a", "b"] "b" rfl

/-- C10: on a valid profile path the assembler evaluates the required
attributes in the fixed source order `tls_config`, `log_level`,
`bind_to`, `database_url`, `email_config`; when several required
attributes are all unresolved, the panic names the first of them in that
order. -/
theorem c10_required_field_order (self : TelescopeConfig) (ps : List String)
    (n : TelescopeConfig) (hwalk : walkProfile self ps ps = .ok n) :
    (unresolved self ps (fun c => c.tls_config) →
      self.make_concrete ps = .panicked "Could not resolve TLS config.")
    ∧ (¬ unresolved self ps (fun c => c.tls_config) →
       unresolved self ps (fun c => c.log_level) →
      self.make_concrete ps = .panicked "Could not resolve log level.")
    ∧ (¬ unresolved self ps (fun c => c.tls_config) →
       ¬ unresolved self ps (fun c => c.log_level) →
       unresolved self ps (fun c => c.bind_to) →
      self.make_concrete ps = .panicked "Could not resolve binding URL.")
    ∧ (¬ unresolved self ps (fun c => c.tls_config) →
       ¬ unresolved self ps (fun c => c.log_level) →
       ¬ unresolved self ps (fun c => c.bind_to) →
       unresolved self ps (fun c => c.database_url) →
      self.make_concrete ps = .panicked "Could not resolve database URL.")
    ∧ (¬ unresolved self ps (fun c => c.tls_config) →
       ¬ unresolved self ps (fun c => c.log_level) →
       ¬ unresolved self ps (fun c => c.bind_to) →
       ¬ unresolved self ps (fun c => c.database_url) →
       unresolved self ps (fun c => c.email_config) →
      self.make_concrete ps = .panicked "Could not resolve email config.") := by
  obtain ⟨o1, h1⟩ := reverse_lookup_total self ps (fun c => c.tls_config) ps n hwalk
  obtain ⟨o2, h2⟩ := reverse_lookup_total self ps (fun c => c.log_level) ps n hwalk
  obtain ⟨o3, h3⟩ := reverse_lookup_total self ps (fun c => c.bind_to) ps n hwalk
  obtain ⟨o4, h4⟩ := reverse_lookup_total self ps (fun c => c.database_url) ps n hwalk
  obtain ⟨o5, h5⟩ := reverse_lookup_total self ps (fun c => c.email_config) ps n hwalk
  obtain ⟨o6, h6⟩ :=
    reverse_lookup_total self ps (fun c => c.sysadmin_config) ps n hwalk
  have hmc := make_concrete_eq_assemble self ps n hwalk o1 o2 o3 o4 o5 o6
    h1 h2 h3 h4 h5 h6
  simp only [unresolved, hmc, h1, h2, h3, h4, h5, Option.some.injEq]
  cases o1 <;> cases o2 <;> cases o3 <;> cases o4 <;> cases o5 <;>
    simp [assembleFrom]

/-- C10 witness: with both `tls_config` and `database_url` unresolved on
the (empty, valid) path, the failure names `tls_config`, the first in the
fixed order. -/
theorem c10_witness :
    unresolved noTlsNoDbRoot [] (fun c => c.tls_config) ∧
    unresolved noTlsNoDbRoot [] (fun c => c.database_url) ∧
    noTlsNoDbRoot.make_concrete [] = .panicked "Could not resolve TLS config." :=
  ⟨rfl, rfl,
    (c10_required_field_order noTlsNoDbRoot [] noTlsNoDbRoot rfl).1 rfl⟩

end Telescope
